import Mathlib

/-!
Verification development for the Cuckoo Breeding Ground (CBG) hash table
(`src/cbg.hpp`).  The engine `cbg::cbg_internal::CBG_IMPL` is embedded
shallowly:

* `size_t` values are `Nat`; every arithmetic operation that the source
  performs on `size_t` wraps modulo `W = 2^64`, so additions and
  subtractions go through `addW`/`subW` (C++ unsigned wrap-around).
* metadata words are `Nat` (the AoS layout stores 8 significant bits, the
  SoA layout 16); the codec functions mirror the bit masks of
  `MetadataLayout_AoS` / `MetadataLayout_SoA` literally.
* the table state is a record of total functions `Nat → Nat` for the
  metadata, key and value arrays (the engine is instantiated at
  `KEY = VALUE = Nat`, `EQ = std::equal_to`, i.e. `==`); reads outside
  the allocated range are undefined behaviour in C++, a total function
  gives them an arbitrary harmless value.
* the hasher is a parameter `hsh : Nat → Nat × Nat`, as `HASHER` is a
  template parameter of the source.
* `try_insert`'s `while (true)` loop is run on explicit fuel; situations
  in which the C++ has undefined behaviour (the `j--` scan of
  `Reverse_Bucket` running past zero, the hopscotch walk making no
  progress, fuel exhaustion on out-of-range windows) return `none`.
* the floating point members (`_max_load_factor`, `load_factor()`) are
  modelled over `ℚ`; every concrete comparison appearing in a theorem
  below is far away from any float rounding boundary.
* `rehash` is not needed by any claim settled against a reachable
  scenario below; the public `insert` wrapper therefore maps its two
  rehash edges to `none` and all scenario runs stay on the `some` path.
-/

namespace CBG

/-- `size_t` modulus: the source is the 64-bit build (`SIZE_MAX == UINT64_MAX`). -/
def W : Nat := 2 ^ 64

/-- Wrapping `size_t` addition. -/
def addW (a b : Nat) : Nat := (a + b) % W

/-- Wrapping `size_t` subtraction `a - b` (two's-complement wrap-around). -/
def subW (a b : Nat) : Nat := (a % W + (W - b % W)) % W

/-- `SIZE_MAX`, the miss / "no position" sentinel of the source. -/
def SIZE_MAX : Nat := W - 1

/-! ## Metadata codec (`MetadataLayout_SoA` / `MetadataLayout_AoS`)

Bit layout (low byte, identical in both layouts):
`b7` unlucky bucket, `b6` bucket reversed, `b5..b3` element distance
(top bit of the field unused: the accessor masks with `0b11`),
`b5` reversed item, `b2..b0` label.  The SoA layout additionally keeps a
hash fingerprint in bits `b15..b8`. -/

/-- `Get_Label`: `metadata[pos] & 0b00'000'111`. -/
def Get_Label (m : Nat) : Nat := m &&& 0b111

/-- `Is_Empty`: `Get_Label(pos) == 0`. -/
def Is_Empty (m : Nat) : Bool := Get_Label m == 0

/-- `Set_Empty`: `metadata[pos] &= 0b11'000'000` (same mask in both layouts;
on the 16-bit SoA word this also clears the fingerprint byte). -/
def Set_Empty (m : Nat) : Nat := m &&& 0b11000000

/-- `Is_Item_In_Reverse_Bucket`: `metadata[pos] & 0b00'100'000`. -/
def Is_Item_In_Reverse_Bucket (m : Nat) : Bool := (m &&& 0b100000) != 0

/-- `Distance_to_Entry_Bin`: `(metadata[pos] >> 3) & 0b11`. -/
def Distance_to_Entry_Bin (m : Nat) : Nat := (m >>> 3) &&& 0b11

/-- `Is_Unlucky_Bucket`: `metadata[pos] & 0b10'000'000` (present in the
source as a commented-out accessor; `find_position_*` inlines the mask). -/
def Is_Unlucky_Bucket (m : Nat) : Bool := (m &&& 0b10000000) != 0

/-- `Set_Unlucky_Bucket`: `metadata[pos] |= 0b10'000'000`. -/
def Set_Unlucky_Bucket (m : Nat) : Nat := m ||| 0b10000000

/-- `Is_Bucket_Reversed`: `metadata[pos] & 0b01'000'000`. -/
def Is_Bucket_Reversed (m : Nat) : Bool := (m &&& 0b1000000) != 0

/-- `Set_Bucket_Reversed`: `metadata[pos] |= 0b01'000'000`. -/
def Set_Bucket_Reversed (m : Nat) : Nat := m ||| 0b1000000

/-- `MetadataLayout_AoS::Update_Bin_At`:
`metadata = (old & 0b11'000'000) | (rev ? 0b00'100'000 : 0) | (uint8_t(dist) << 3) | label`,
stored into a `uint8_t` (hence the final `% 256`; the cast of `dist`
is the inner `% 256`). -/
def Update_Bin_At_8 (old dist : Nat) (rev : Bool) (label : Nat) : Nat :=
  ((old &&& 0b11000000) ||| (if rev then 0b100000 else 0) ||| ((dist % 256) <<< 3) ||| label) % 256

/-! ## fastrange (`CBG_IMPL::fastrange32` / `fastrange64`)

`fastrange32` computes `(uint32_t)(((uint64_t)word * p) >> 32)`;
`fastrange64` computes `(uint64_t)(((__uint128_t)word * p) >> 64)`.
The intermediate products are taken in the wider type (no wrap for
in-range arguments), and the final casts truncate. -/

def fastrange32 (word p : Nat) : Nat := ((word * p) % 2 ^ 64) >>> 32 % 2 ^ 32

def fastrange64 (word p : Nat) : Nat := ((word * p) % 2 ^ 128) >>> 64 % 2 ^ 64

/-- `fastrange` on the 64-bit build. -/
def fastrange (word p : Nat) : Nat := fastrange64 word p

/-! ## Table state -/

/-- State of a `CBG_IMPL` instance: counters plus the three storage
arrays, modelled as total functions on positions. -/
structure TState where
  n : Nat
  numElems : Nat
  meta : Nat → Nat
  keys : Nat → Nat
  vals : Nat → Nat

/-- Pointwise array update (the effect of `a[i] = v`). -/
def updf (f : Nat → Nat) (i v : Nat) : Nat → Nat := fun j => if j = i then v else f j

/-- `L_MAX = 7`. -/
def L_MAX : Nat := 7

/-- Number of cells with a non-zero label ("occupied" per §3.4 of the spec:
only the label determines occupancy). -/
def occupiedCount (s : TState) : Nat :=
  (List.range s.n).countP (fun i => !Is_Empty (s.meta i))

/-- Sum of the labels of all cells of the table. -/
def labelSum (s : TState) : Nat :=
  ∑ i ∈ Finset.range s.n, Get_Label (s.meta i)

/-! ## Lookup (`find_position_AoS`, `find_position_SoA`, `find_position`)

Both lookups read the anchor word `c0` of the primary bucket once, probe
`NUM_ELEMS_BUCKET` cells stepping by `reverse_sum` (`+1`, or `-1` i.e.
`SIZE_MAX` when bit 6 of `c0` is set), and probe the second bucket only
under `c0 & 0b10'000'000`.  The source unrolls the probes with
`if (NUM_ELEMS_BUCKET > 2) ... if (NUM_ELEMS_BUCKET > 3) ...`, which for
`B ∈ {2,3,4}` (enforced by its `static_assert`) is exactly `B` probes;
`probeSeq` performs the same `B` probes by recursion.  A probe hits when
`cmp_elems(pos, elem) && (cc & 0b111)` — `EQ` is `std::equal_to`, i.e.
key equality. -/

/-- `reverse_sum = (c & 0b01'000'000) ? size_t(-1) : size_t(1)`. -/
def reverse_sum (c : Nat) : Nat := if (c &&& 0b1000000) != 0 then W - 1 else 1

/-- The `B` unrolled probes of one bucket of `find_position_AoS`. -/
def probeSeq (s : TState) (k rs : Nat) : Nat → Nat → Option Nat
  | 0, _ => none
  | b + 1, p =>
    if s.keys p == k && (s.meta p &&& 0b111) != 0 then some p
    else probeSeq s k rs b (addW p rs)

/-- The `B` unrolled probes of one bucket of `find_position_SoA`, with the
fingerprint filter `((cc ^ h) & 0xFF00) == 0` (`h = uint16_t(other hash)`). -/
def probeSeqSoA (s : TState) (k fp rs : Nat) : Nat → Nat → Option Nat
  | 0, _ => none
  | b + 1, p =>
    if ((s.meta p ^^^ fp) &&& 0xFF00) == 0 && s.keys p == k && (s.meta p &&& 0b111) != 0
    then some p
    else probeSeqSoA s k fp rs b (addW p rs)

/-- Primary-bucket probe of `find_position_AoS` (anchored at
`fastrange(hash0, num_buckets)`). -/
def primaryProbe_AoS (B : Nat) (hsh : Nat → Nat × Nat) (s : TState) (k : Nat) : Option Nat :=
  probeSeq s k (reverse_sum (s.meta (fastrange (hsh k).1 s.n))) B (fastrange (hsh k).1 s.n)

/-- `CBG_IMPL::find_position_AoS`, returning `none` for `SIZE_MAX`. -/
def find_position_AoS (B : Nat) (hsh : Nat → Nat × Nat) (s : TState) (k : Nat) : Option Nat :=
  match primaryProbe_AoS B hsh s k with
  | some p => some p
  | none =>
    if (s.meta (fastrange (hsh k).1 s.n) &&& 0b10000000) != 0 then
      probeSeq s k (reverse_sum (s.meta (fastrange (hsh k).2 s.n))) B (fastrange (hsh k).2 s.n)
    else none

/-- Primary-bucket probe of `find_position_SoA` (fingerprint is
`uint16_t(hash1)`). -/
def primaryProbe_SoA (B : Nat) (hsh : Nat → Nat × Nat) (s : TState) (k : Nat) : Option Nat :=
  probeSeqSoA s k ((hsh k).2 % 2 ^ 16)
    (reverse_sum (s.meta (fastrange (hsh k).1 s.n))) B (fastrange (hsh k).1 s.n)

/-- `CBG_IMPL::find_position_SoA` (second bucket fingerprint is
`uint16_t(hash0)`), returning `none` for `SIZE_MAX`. -/
def find_position_SoA (B : Nat) (hsh : Nat → Nat × Nat) (s : TState) (k : Nat) : Option Nat :=
  match primaryProbe_SoA B hsh s k with
  | some p => some p
  | none =>
    if (s.meta (fastrange (hsh k).1 s.n) &&& 0b10000000) != 0 then
      probeSeqSoA s k ((hsh k).1 % 2 ^ 16)
        (reverse_sum (s.meta (fastrange (hsh k).2 s.n))) B (fastrange (hsh k).2 s.n)
    else none

/-- `CBG_IMPL::find_position` for the AoS instantiation (`IS_SoA = false`),
the one used by the engine operations modelled below. -/
def find_position (B : Nat) (hsh : Nat → Nat × Nat) (s : TState) (k : Nat) : Option Nat :=
  find_position_AoS B hsh s k

/-- `CBG_IMPL::count`: `find_position(elem) != SIZE_MAX ? 1 : 0`.  The
method is `const noexcept` and calls only `const` accessors, which the
embedding reflects by `count` being a pure function of the state. -/
def count (B : Nat) (hsh : Nat → Nat × Nat) (s : TState) (k : Nat) : Nat :=
  if (find_position B hsh s k).isSome then 1 else 0

/-- `CBG_IMPL::erase`: on a hit, `Set_Empty` the cell and return 1; the
source never decrements `num_elems`. -/
def erase (B : Nat) (hsh : Nat → Nat × Nat) (s : TState) (k : Nat) : Nat × TState :=
  match find_position B hsh s k with
  | some p => (1, { s with meta := updf s.meta p (Set_Empty (s.meta p)) })
  | none => (0, s)

/-- `CBG_IMPL::load_factor`: `size() * 100f / capacity()`, over `ℚ`. -/
def load_factor (s : TState) : ℚ := (s.numElems : ℚ) * 100 / (s.n : ℚ)

/-! ## Insertion utilities -/

/-- `CBG_IMPL::Calculate_Minimum`: scan the `B` cells from `bucket_pos`,
keeping the first position achieving the minimum label.  The source's
early exit (`for (i = 1; minimum && i < B; i++)`) stops once the minimum
is `0`; since a `0` minimum is never displaced by the strict `minimum >
label_value` update, the full fold below computes the identical pair.
The inline minima scan of `try_insert` (its early exit is commented out
in the source) is this same fold per bucket. -/
def Calculate_Minimum (m : Nat → Nat) (bucket_pos B : Nat) : Nat × Nat :=
  (List.range' 1 (B - 1)).foldl
    (fun acc i =>
      if acc.1 > Get_Label (m (addW bucket_pos i)) then
        (Get_Label (m (addW bucket_pos i)), addW bucket_pos i)
      else acc)
    (Get_Label (m bucket_pos), bucket_pos)

/-- `CBG_IMPL::Belong_to_Bucket`: `SIZE_MAX` for an empty cell, else
`elem_pos + (reversed_item ? B-1 : 0) - distance`. -/
def Belong_to_Bucket (m : Nat → Nat) (B elem_pos : Nat) : Nat :=
  if Is_Empty (m elem_pos) then SIZE_MAX
  else
    subW (addW elem_pos (if Is_Item_In_Reverse_Bucket (m elem_pos) then B - 1 else 0))
      (Distance_to_Entry_Bin (m elem_pos))

/-- `CBG_IMPL::Count_Empty`: number of empty cells among
`pos, pos+1, …, pos+B-1`. -/
def Count_Empty (m : Nat → Nat) (pos B : Nat) : Nat :=
  (List.range B).countP (fun i => Is_Empty (m (addW pos i)))

/-- `CBG_IMPL::Count_Elems_In_Bucket_Non_Reversed`: cells of the window
whose `distance` equals their offset and whose `reversed_item` bit is
clear (the source does not skip empty cells). -/
def Count_Elems_In_Bucket_Non_Reversed (m : Nat → Nat) (bucket_pos B : Nat) : Nat :=
  (List.range B).countP
    (fun i =>
      !Is_Item_In_Reverse_Bucket (m (addW bucket_pos i)) &&
        Distance_to_Entry_Bin (m (addW bucket_pos i)) == i)

/-- The `for (; !Is_Empty(bucket_pos - j); j--)` scan of `Reverse_Bucket`:
first `j' ≤ j` (scanning downward) with `bucket_pos - j'` empty.  If none
exists the C++ loop runs `j` past zero and indexes wildly (undefined
behaviour), modelled as `none`. -/
def findEmptyDown (m : Nat → Nat) (bucket_pos : Nat) : Nat → Option Nat
  | 0 => if Is_Empty (m bucket_pos) then some 0 else none
  | j + 1 =>
    if Is_Empty (m (subW bucket_pos (j + 1))) then some (j + 1)
    else findEmptyDown m bucket_pos j

/-- Body of `Reverse_Bucket`'s `for (i …)` loop over the window offsets,
with the persistent `j` cursor.  `Update_Bin_At(bucket_pos-j,
B-1-j, true, label(src), hash(src))`, then `Set_Empty(src)`, then
`MoveElem(bucket_pos-j, src)` (payload only). -/
def revMoveLoop (B bucket_pos : Nat) : List Nat → Nat → TState → Option TState
  | [], _, s => some s
  | i :: is, j, s =>
    if Belong_to_Bucket s.meta B (addW bucket_pos i) == bucket_pos then
      match findEmptyDown s.meta bucket_pos j with
      | none => none
      | some j' =>
        let src := addW bucket_pos i
        let dst := subW bucket_pos j'
        let w := Update_Bin_At_8 (s.meta dst) (subW (B - 1) j') true (Get_Label (s.meta src))
        let m1 := updf s.meta dst w
        let s' : TState :=
          { s with
            meta := updf m1 src (Set_Empty (m1 src))
            keys := updf s.keys dst (s.keys src)
            vals := updf s.vals dst (s.vals src) }
        revMoveLoop B bucket_pos is j' s'
    else revMoveLoop B bucket_pos is j s

/-- `CBG_IMPL::Reverse_Bucket`. -/
def Reverse_Bucket (B : Nat) (s : TState) (bucket_pos : Nat) : Option TState :=
  revMoveLoop B bucket_pos (List.range B) (B - 1)
    { s with meta := updf s.meta bucket_pos (Set_Bucket_Reversed (s.meta bucket_pos)) }

/-! ## `Find_Empty_Pos_Hopscotch`

Split into its three source phases.  Every phase returns the updated
state plus `some pos` for the source's internal `return pos;`
(`none` when it falls through); the whole function returns the
`empty_pos` result (`none` models `SIZE_MAX`). -/

/-- Phase 1 (bucket reversal) of `Find_Empty_Pos_Hopscotch`; also returns
the possibly-updated `bucket_init`. -/
def hopsPhase1 (B : Nat) (s : TState) (bucket_pos bucket_init : Nat) :
    Option (TState × Nat × Option Nat) :=
  if !Is_Bucket_Reversed (s.meta bucket_pos) && bucket_pos ≥ B then
    let count_empty := Count_Empty s.meta (subW (addW bucket_pos 1) B) B
    if count_empty ≠ 0 then
      let count_elems := Count_Elems_In_Bucket_Non_Reversed s.meta bucket_pos B
      let count_empty :=
        if Belong_to_Bucket s.meta B bucket_pos == bucket_pos then
          if count_empty > 0 then count_empty + 1 else count_empty
        else count_empty
      if count_empty > count_elems then
        match Reverse_Bucket B s bucket_pos with
        | none => none
        | some s' =>
          let bucket_init' :=
            addW bucket_pos (if Is_Bucket_Reversed (s'.meta bucket_pos) then subW 1 B else 0)
          let mp := Calculate_Minimum s'.meta bucket_init' B
          if mp.1 == 0 then some (s', bucket_init', some mp.2)
          else some (s', bucket_init', none)
      else some (s, bucket_init, none)
    else some (s, bucket_init, none)
  else some (s, bucket_init, none)

/-- Phase 2 (neighbour reversal) loop body of `Find_Empty_Pos_Hopscotch`.
On a successful reversal the source either returns (minimum 0) or
`break`s out of the loop. -/
def hopsPhase2 (B : Nat) (bucket_pos bucket_init : Nat) :
    List Nat → TState → Option (TState × Option Nat)
  | [], s => some (s, none)
  | i :: is, s =>
    let pos_elem := addW bucket_init i
    if !Is_Item_In_Reverse_Bucket (s.meta pos_elem) then
      let bucket_elem := subW pos_elem (Distance_to_Entry_Bin (s.meta pos_elem))
      if bucket_elem ≠ bucket_pos then
        let count_empty := Count_Empty s.meta (subW (addW bucket_elem 1) B) B
        if count_empty ≠ 0 then
          let count_elems := Count_Elems_In_Bucket_Non_Reversed s.meta bucket_elem B
          let count_empty :=
            if Belong_to_Bucket s.meta B bucket_elem == bucket_elem then
              if count_empty > 0 then count_empty + 1 else count_empty
            else count_empty
          if count_empty ≥ count_elems then
            match Reverse_Bucket B s bucket_elem with
            | none => none
            | some s' =>
              let mp := Calculate_Minimum s'.meta bucket_init B
              if mp.1 == 0 then some (s', some mp.2) else some (s', none)
          else hopsPhase2 B bucket_pos bucket_init is s
        else hopsPhase2 B bucket_pos bucket_init is s
      else hopsPhase2 B bucket_pos bucket_init is s
    else hopsPhase2 B bucket_pos bucket_init is s

/-- The inner `for (; (pos_blank - pos_swap) > (B - 1 - dist(pos_swap));
pos_swap++)` scan of phase 3.  It always stops at `pos_swap = pos_blank`
(distance `0` exceeds nothing), so `B - 1` steps of fuel are exact. -/
def hopsFindSwap (m : Nat → Nat) (B pos_blank : Nat) : Nat → Nat → Nat
  | 0, pos_swap => pos_swap
  | fuel + 1, pos_swap =>
    if subW pos_blank pos_swap > subW (B - 1) (Distance_to_Entry_Bin (m pos_swap)) then
      hopsFindSwap m B pos_blank fuel (addW pos_swap 1)
    else pos_swap

/-- The `while ((pos_blank - bucket_init) >= B)` walk of phase 3.  The
source moves the element at `pos_swap` into the blank (without clearing
`pos_swap`'s metadata — the caller overwrites the returned cell) and
continues with `pos_blank = pos_swap`.  If the scan yields
`pos_swap = pos_blank` the C++ loop makes no progress (it never
terminates); modelled as `none`, as is fuel exhaustion. -/
def hopsWalk (B bucket_init : Nat) : Nat → TState → Nat → Option (TState × Nat)
  | 0, _, _ => none
  | fuel + 1, s, pos_blank =>
    if subW pos_blank bucket_init ≥ B then
      let pos_swap := hopsFindSwap s.meta B pos_blank (B - 1) (subW (addW pos_blank 1) B)
      if pos_swap == pos_blank then none
      else
        let w :=
          Update_Bin_At_8 (s.meta pos_blank)
            (addW (Distance_to_Entry_Bin (s.meta pos_swap)) (subW pos_blank pos_swap))
            (Is_Item_In_Reverse_Bucket (s.meta pos_swap)) (Get_Label (s.meta pos_swap))
        let s' : TState :=
          { s with
            meta := updf s.meta pos_blank w
            keys := updf s.keys pos_blank (s.keys pos_swap)
            vals := updf s.vals pos_blank (s.vals pos_swap) }
        hopsWalk B bucket_init fuel s' pos_swap
    else some (s, pos_blank)

/-- Phase 3 (classic hopscotch) scan of `Find_Empty_Pos_Hopscotch`:
`for (i = 0; i <= max_dist_to_move && bucket_init + i < num_buckets; i++)`,
extending `max_dist_to_move` by `i + B - 1 - dist(bucket_init+i)`.
The loop counter `i` is a plain counter (it only grows); the fuel
argument dominates the position guard for every in-range window. -/
def hopsPhase3 (B bucket_init : Nat) : Nat → Nat → Nat → TState → Option (TState × Option Nat)
  | 0, _, _, _ => none
  | fuel + 1, i, max_dist_to_move, s =>
    if i ≤ max_dist_to_move ∧ addW bucket_init i < s.n then
      if Is_Empty (s.meta (addW bucket_init i)) then
        match hopsWalk B bucket_init (s.n + B) s (addW bucket_init i) with
        | none => none
        | some (s', pos_blank) => some (s', some pos_blank)
      else
        let current_max_move :=
          subW (subW (addW i B) 1) (Distance_to_Entry_Bin (s.meta (addW bucket_init i)))
        hopsPhase3 B bucket_init fuel (i + 1)
          (if current_max_move > max_dist_to_move then current_max_move else max_dist_to_move) s
    else some (s, none)

/-- `CBG_IMPL::Find_Empty_Pos_Hopscotch`.  `some pos` models an
`empty_pos ≠ SIZE_MAX` result. -/
def Find_Empty_Pos_Hopscotch (B : Nat) (s : TState) (bucket_pos bucket_init : Nat) :
    Option (TState × Option Nat) :=
  match hopsPhase1 B s bucket_pos bucket_init with
  | none => none
  | some (s1, _, some p) => some (s1, some p)
  | some (s1, bucket_init1, none) =>
    match
      (if bucket_init1 ≥ 2 * B then hopsPhase2 B bucket_pos bucket_init1 (List.range B) s1
       else some (s1, none)) with
    | none => none
    | some (s2, some p) => some (s2, some p)
    | some (s2, none) => hopsPhase3 B bucket_init1 (s2.n + B + 1) 0 (B - 1) s2

/-! ## `try_insert` -/

/-- Write an element's payload and metadata at a cell
(`Update_Bin_At` + `SaveElem`), without touching the counter. -/
def writeCell (s : TState) (pos dist : Nat) (rev : Bool) (label : Nat) (e : Nat × Nat) : TState :=
  { s with
    meta := updf s.meta pos (Update_Bin_At_8 (s.meta pos) dist rev label)
    keys := updf s.keys pos e.1
    vals := updf s.vals pos e.2 }

/-- A placement: `writeCell` followed by `num_elems++`. -/
def place (s : TState) (pos dist : Nat) (rev : Bool) (label : Nat) (e : Nat × Nat) : TState :=
  let s' := writeCell s pos dist rev label e
  { s' with numElems := s'.numElems + 1 }

/-- Result of one iteration of `try_insert`'s `while (true)` loop:
a successful placement (`return true`), saturation (`return false`),
or a cuckoo eviction that continues the loop with the victim. -/
inductive RoundRes where
  | placed : TState → RoundRes
  | failed : TState → RoundRes
  | evict : TState → Nat × Nat → RoundRes

/-- One iteration of the `while (true)` loop of `CBG_IMPL::try_insert`
(the engine instantiated with the map layouts: `INSERT_TYPE` is the
key/value pair, `hash_elem` hashes the key). -/
def tryInsertRound (B : Nat) (hsh : Nat → Nat × Nat) (s : TState) (e : Nat × Nat) :
    Option RoundRes :=
  let hash0 := (hsh e.1).1
  let hash1 := (hsh e.1).2
  let bucket1_pos := fastrange hash0 s.n
  let bucket2_pos := fastrange hash1 s.n
  let is_reversed_bucket1 := Is_Bucket_Reversed (s.meta bucket1_pos)
  let is_reversed_bucket2 := Is_Bucket_Reversed (s.meta bucket2_pos)
  let bucket1_init := addW bucket1_pos (if is_reversed_bucket1 then subW 1 B else 0)
  let bucket2_init := addW bucket2_pos (if is_reversed_bucket2 then subW 1 B else 0)
  let mp1 := Calculate_Minimum s.meta bucket1_init B
  let mp2 := Calculate_Minimum s.meta bucket2_init B
  let min1 := mp1.1
  let pos1 := mp1.2
  let min2 := mp2.1
  let pos2 := mp2.2
  if min1 == 0 then
    some (.placed
      (place s pos1 (subW pos1 bucket1_init) is_reversed_bucket1 (min (min2 + 1) L_MAX) e))
  else
    match Find_Empty_Pos_Hopscotch B s bucket1_pos bucket1_init with
    | none => none
    | some (s1, some empty_pos) =>
      let r1 := Is_Bucket_Reversed (s1.meta bucket1_pos)
      let init1 := addW bucket1_pos (if r1 then subW 1 B else 0)
      some (.placed (place s1 empty_pos (subW empty_pos init1) r1 (min (min2 + 1) L_MAX) e))
    | some (s1, none) =>
      if min2 == 0 then
        let s1u :=
          { s1 with meta := updf s1.meta bucket1_pos (Set_Unlucky_Bucket (s1.meta bucket1_pos)) }
        some (.placed
          (place s1u pos2 (subW pos2 bucket2_init) is_reversed_bucket2 (min (min1 + 1) L_MAX) e))
      else
        match
          (if s1.numElems * 10 > 9 * s1.n then
            Find_Empty_Pos_Hopscotch B s1 bucket2_pos bucket2_init
           else some (s1, none)) with
        | none => none
        | some (s2, some empty_pos) =>
          let s2u :=
            { s2 with meta := updf s2.meta bucket1_pos (Set_Unlucky_Bucket (s2.meta bucket1_pos)) }
          let r2 := Is_Bucket_Reversed (s2u.meta bucket2_pos)
          let init2 := addW bucket2_pos (if r2 then subW 1 B else 0)
          some (.placed (place s2u empty_pos (subW empty_pos init2) r2 (min (min1 + 1) L_MAX) e))
        | some (s2, none) =>
          if min min1 min2 ≥ L_MAX then some (.failed s2)
          else if min1 ≤ min2 then
            let victim := (s2.keys pos1, s2.vals pos1)
            some (.evict
              (writeCell s2 pos1 (subW pos1 bucket1_init) is_reversed_bucket1
                (min (min2 + 1) L_MAX) e)
              victim)
          else
            let s2u :=
              { s2 with
                meta := updf s2.meta bucket1_pos (Set_Unlucky_Bucket (s2.meta bucket1_pos)) }
            let victim := (s2u.keys pos2, s2u.vals pos2)
            some (.evict
              (writeCell s2u pos2 (subW pos2 bucket2_init) is_reversed_bucket2
                (min (min1 + 1) L_MAX) e)
              victim)

/-- `CBG_IMPL::try_insert`, with fuel for the `while (true)` loop; the
third component counts the eviction rounds taken. -/
def try_insert (B : Nat) (hsh : Nat → Nat × Nat) :
    Nat → TState → Nat × Nat → Nat → Option (Bool × TState × Nat)
  | 0, _, _, _ => none
  | fuel + 1, s, e, rounds =>
    match tryInsertRound B hsh s e with
    | none => none
    | some (.placed s') => some (true, s', rounds)
    | some (.failed s') => some (false, s', rounds)
    | some (.evict s' e') => try_insert B hsh fuel s' e' (rounds + 1)

/-- `CBG_IMPL::insert` (public entry point).  The two rehash edges (load
factor exceeded before the attempt, `try_insert` failure) are not
modelled and return `none`; all scenarios below stay on the `some`
path.  The guard `num_elems >= num_buckets * _max_load_factor` with the
default `_max_load_factor = 0.9001f` is rendered as the exact rational
comparison `num_elems ≥ num_buckets * 9001 / 10000`, cross-multiplied
over `Nat` (every concrete evaluation below is far from the float
rounding boundary of `0.9001f`). -/
def insert (B : Nat) (hsh : Nat → Nat × Nat) (s : TState) (e : Nat × Nat) : Option TState :=
  if 10000 * s.numElems ≥ 9001 * s.n then none
  else
    match try_insert B hsh (7 * s.n + 1) s e 0 with
    | some (true, s', _) => some s'
    | _ => none

/-- Fresh table of `CBG_IMPL(expected_num_elems)`: `n` zeroed cells with
the last `B - 1` anchors born reversed (`n` is assumed `≥ MIN_BINS_SIZE`,
as the constructor enforces by `max`). -/
def initTable (B n : Nat) : TState :=
  { n := n
    numElems := 0
    meta := fun p => if n - B < p ∧ p < n then 0b1000000 else 0
    keys := fun _ => 0
    vals := fun _ => 0 }

/-! ## Bit-level facts about the metadata codec -/

lemma setEmpty_label (m : Nat) : Get_Label (Set_Empty m) = 0 := by
  show (m &&& 192) &&& 7 = 0
  rw [Nat.and_assoc, show (192 &&& 7 : Nat) = 0 by decide]
  simp

lemma setEmpty_distance (m : Nat) : Distance_to_Entry_Bin (Set_Empty m) = 0 := by
  show ((m &&& 192) >>> 3) &&& 3 = 0
  have h32 : (m &&& 192) % 32 = 0 := by
    rw [show (32 : Nat) = 2 ^ 5 by norm_num, ← Nat.and_pow_two_sub_one_eq_mod,
      show (2 ^ 5 - 1 : Nat) = 31 by norm_num, Nat.and_assoc,
      show (192 &&& 31 : Nat) = 0 by decide]
    simp
  rw [Nat.shiftRight_eq_div_pow, show (3 : Nat) = 2 ^ 2 - 1 by norm_num,
    Nat.and_pow_two_sub_one_eq_mod]
  norm_num
  omega

lemma setEmpty_reversed_item (m : Nat) : Is_Item_In_Reverse_Bucket (Set_Empty m) = false := by
  show (((m &&& 192) &&& 32) != 0) = false
  rw [Nat.and_assoc, show (192 &&& 32 : Nat) = 0 by decide]
  simp

lemma setEmpty_bucket_reversed (m : Nat) :
    Is_Bucket_Reversed (Set_Empty m) = Is_Bucket_Reversed m := by
  show (((m &&& 192) &&& 64) != 0) = ((m &&& 64) != 0)
  rw [Nat.and_assoc, show (192 &&& 64 : Nat) = 64 by decide]

lemma setEmpty_unlucky (m : Nat) : Is_Unlucky_Bucket (Set_Empty m) = Is_Unlucky_Bucket m := by
  show (((m &&& 192) &&& 128) != 0) = ((m &&& 128) != 0)
  rw [Nat.and_assoc, show (192 &&& 128 : Nat) = 128 by decide]

/-- The label field of a word written by `Update_Bin_At` is the `label`
argument, whenever that argument fits the three-bit field (every call
site passes `min(… + 1, L_MAX) ≤ 7` or an existing label). -/
lemma getLabel_update_bin (old dist : Nat) (rev : Bool) (label : Nat) (hl : label < 8) :
    Get_Label (Update_Bin_At_8 old dist rev label) = label := by
  show (((old &&& 192) ||| (if rev then 32 else 0) ||| ((dist % 256) <<< 3) ||| label) % 256)
      &&& 7 = label
  have h1 : (old &&& 192) &&& 7 = 0 := by
    rw [Nat.and_assoc, show (192 &&& 7 : Nat) = 0 by decide]
    simp
  have h2 : (if rev then 32 else 0 : Nat) &&& 7 = 0 := by
    rcases rev with _ | _ <;> decide
  have h3 : ((dist % 256) <<< 3) &&& 7 = 0 := by
    rw [Nat.shiftLeft_eq, show (7 : Nat) = 2 ^ 3 - 1 by norm_num,
      Nat.and_pow_two_sub_one_eq_mod, show (2 ^ 3 : Nat) = 8 by norm_num, Nat.mul_mod_left]
  have h4 : label &&& 7 = label := by
    rw [show (7 : Nat) = 2 ^ 3 - 1 by norm_num, Nat.and_pow_two_sub_one_eq_mod,
      Nat.mod_eq_of_lt (by omega : label < 2 ^ 3)]
  have hmod : ∀ X : Nat, (X % 256) &&& 7 = X &&& 7 := by
    intro X
    rw [show (256 : Nat) = 2 ^ 8 by norm_num, ← Nat.and_pow_two_sub_one_eq_mod,
      show (2 ^ 8 - 1 : Nat) = 255 by norm_num, Nat.and_assoc,
      show (255 &&& 7 : Nat) = 7 by decide]
  rw [hmod, Nat.and_distrib_right, Nat.and_distrib_right, Nat.and_distrib_right,
    h1, h2, h3, h4]
  simp

/-- Labels always fit in three bits. -/
lemma getLabel_le (m : Nat) : Get_Label m ≤ L_MAX :=
  Nat.and_le_right

/-! ## Claim theorems -/

/-- Hasher used by small witness scenarios: every key hashes to `(0, 0)`. -/
def zeroHash : Nat → Nat × Nat := fun _ => (0, 0)

/-- Witness state for C7: one occupied cell at position 0 whose metadata
has both the `bucket_reversed` and `unlucky_bucket` flags set
(`193 = 0b11000001`). -/
def w7s : TState :=
  { n := 2, numElems := 1
    meta := fun p => if p = 0 then 193 else 0
    keys := fun p => if p = 0 then 5 else 0
    vals := fun _ => 0 }

/-- C7: for every cell metadata word, `Set_Empty` clears bits 0..5 (the
label, distance and reversed-item fields read back as zero) and leaves
the `bucket_reversed` and `unlucky_bucket` bits unchanged; consequently a
successful `erase` preserves those two flags at the erased position
(while zeroing its label). -/
theorem C7_set_empty_preserves_bucket_flags :
    (∀ m : Nat,
      Get_Label (Set_Empty m) = 0 ∧ Distance_to_Entry_Bin (Set_Empty m) = 0 ∧
        Is_Item_In_Reverse_Bucket (Set_Empty m) = false ∧
        Is_Bucket_Reversed (Set_Empty m) = Is_Bucket_Reversed m ∧
        Is_Unlucky_Bucket (Set_Empty m) = Is_Unlucky_Bucket m) ∧
    (∀ (B : Nat) (hsh : Nat → Nat × Nat) (s : TState) (k p : Nat),
      find_position B hsh s k = some p →
        (erase B hsh s k).1 = 1 ∧
        Is_Bucket_Reversed ((erase B hsh s k).2.meta p) = Is_Bucket_Reversed (s.meta p) ∧
        Is_Unlucky_Bucket ((erase B hsh s k).2.meta p) = Is_Unlucky_Bucket (s.meta p) ∧
        Get_Label ((erase B hsh s k).2.meta p) = 0) := by
  constructor
  · intro m
    exact ⟨setEmpty_label m, setEmpty_distance m, setEmpty_reversed_item m,
      setEmpty_bucket_reversed m, setEmpty_unlucky m⟩
  · intro B hsh s k p hfind
    unfold erase
    rw [hfind]
    refine ⟨rfl, ?_, ?_, ?_⟩
    all_goals simp only [updf, if_pos rfl]
    exacts [setEmpty_bucket_reversed _, setEmpty_unlucky _, setEmpty_label _]

/-- Witness for C7: at the concrete state `w7s` the key 5 is found at
position 0, erasing succeeds, and both bucket flags survive the erase. -/
theorem C7_witness :
    find_position 2 zeroHash w7s 5 = some 0 ∧
      ((erase 2 zeroHash w7s 5).1 = 1 ∧
        Is_Bucket_Reversed ((erase 2 zeroHash w7s 5).2.meta 0) = Is_Bucket_Reversed (w7s.meta 0) ∧
        Is_Unlucky_Bucket ((erase 2 zeroHash w7s 5).2.meta 0) = Is_Unlucky_Bucket (w7s.meta 0) ∧
        Get_Label ((erase 2 zeroHash w7s 5).2.meta 0) = 0) :=
  ⟨by decide, C7_set_empty_preserves_bucket_flags.2 2 zeroHash w7s 5 0 (by decide)⟩

/-- C9: `fastrange(h, n)` computes the multiply-high reduction
`⌊h·n / 2^w⌋` for both word widths `w = 32` and `w = 64` (the casts of
the source truncate nothing), and the result lies in `[0, n)` for
in-range inputs and non-zero `n`. -/
theorem C9_fastrange_is_multiply_high :
    (∀ h n : Nat, h < 2 ^ 32 → n < 2 ^ 32 → 0 < n →
      fastrange32 h n = h * n / 2 ^ 32 ∧ fastrange32 h n < n) ∧
    (∀ h n : Nat, h < 2 ^ 64 → n < 2 ^ 64 → 0 < n →
      fastrange64 h n = h * n / 2 ^ 64 ∧ fastrange64 h n < n) := by
  constructor
  · intro h n hh hn hpos
    have hprod : h * n < 2 ^ 64 := by
      have hle : h * n ≤ (2 ^ 32 - 1) * (2 ^ 32 - 1) := Nat.mul_le_mul (by omega) (by omega)
      omega
    have heq : fastrange32 h n = h * n / 2 ^ 32 := by
      unfold fastrange32
      rw [Nat.mod_eq_of_lt hprod, Nat.shiftRight_eq_div_pow,
        Nat.mod_eq_of_lt ((Nat.div_lt_iff_lt_mul (by norm_num)).2 (by omega))]
    refine ⟨heq, ?_⟩
    rw [heq]
    refine (Nat.div_lt_iff_lt_mul (by norm_num)).2 ?_
    have h1 : h * n ≤ (2 ^ 32 - 1) * n := Nat.mul_le_mul_right n (by omega)
    have h2 : (2 ^ 32 - 1) * n < 2 ^ 32 * n :=
      Nat.mul_lt_mul_of_lt_of_le (by omega) (le_refl n) hpos
    calc h * n ≤ (2 ^ 32 - 1) * n := h1
    _ < 2 ^ 32 * n := h2
    _ = n * 2 ^ 32 := Nat.mul_comm _ _
  · intro h n hh hn hpos
    have hprod : h * n < 2 ^ 128 := by
      have hle : h * n ≤ (2 ^ 64 - 1) * (2 ^ 64 - 1) := Nat.mul_le_mul (by omega) (by omega)
      omega
    have heq : fastrange64 h n = h * n / 2 ^ 64 := by
      unfold fastrange64
      rw [Nat.mod_eq_of_lt hprod, Nat.shiftRight_eq_div_pow,
        Nat.mod_eq_of_lt ((Nat.div_lt_iff_lt_mul (by norm_num)).2 (by omega))]
    refine ⟨heq, ?_⟩
    rw [heq]
    refine (Nat.div_lt_iff_lt_mul (by norm_num)).2 ?_
    have h1 : h * n ≤ (2 ^ 64 - 1) * n := Nat.mul_le_mul_right n (by omega)
    have h2 : (2 ^ 64 - 1) * n < 2 ^ 64 * n := by
      have : (2 ^ 64 - 1) < 2 ^ 64 := by omega
      exact Nat.mul_lt_mul_of_lt_of_le this (le_refl n) hpos
    calc h * n ≤ (2 ^ 64 - 1) * n := h1
    _ < 2 ^ 64 * n := h2
    _ = n * 2 ^ 64 := Nat.mul_comm _ _

/-- Witness for C9: the reduction at concrete inputs of both widths. -/
theorem C9_witness :
    (3 : Nat) < 2 ^ 32 ∧ (6 : Nat) < 2 ^ 32 ∧ (0 : Nat) < 6 ∧
      fastrange32 (2 ^ 31) 6 = 3 ∧ fastrange64 (2 ^ 63) 6 = 3 := by
  have h32 := (C9_fastrange_is_multiply_high.1 (2 ^ 31) 6 (by norm_num) (by norm_num)
    (by norm_num)).1
  have h64 := (C9_fastrange_is_multiply_high.2 (2 ^ 63) 6 (by norm_num) (by norm_num)
    (by norm_num)).1
  refine ⟨by norm_num, by norm_num, by norm_num, ?_, ?_⟩
  · rw [h32]; norm_num
  · rw [h64]; norm_num

/-- State of a table of 4 bins holding one element (the state a fresh
`B = 3` table reaches after one insert). -/
def c8s : TState :=
  { n := 4, numElems := 1
    meta := fun p => if p = 0 then 1 else if p = 2 ∨ p = 3 then 64 else 0
    keys := fun _ => 7
    vals := fun _ => 42 }

/-- Counterexample to C8: at a table of capacity 4 holding one element
the source's `load_factor()` returns `size() * 100 / capacity() = 25`,
not the fraction `len / capacity = 1/4 ∈ [0,1]` the claim states. -/
theorem C8_counterexample :
    load_factor c8s = 25 ∧ ¬ load_factor c8s ≤ 1 ∧
      (c8s.numElems : ℚ) / (c8s.n : ℚ) = 1 / 4 := by
  refine ⟨?_, ?_, ?_⟩ <;> norm_num [load_factor, c8s]

/-- C8 (amended): `load_factor()` returns `len * 100 / capacity`, a
percentage lying in `[0, 100]` for every table with non-zero capacity
and `len ≤ capacity`.  (The `float` arithmetic of the source is modelled
exactly over `ℚ`; the factor-of-100 discrepancy with the claim is far
larger than any float rounding.) -/
theorem C8_load_factor_is_percentage (s : TState) (hn : 0 < s.n) (he : s.numElems ≤ s.n) :
    load_factor s = (s.numElems : ℚ) * 100 / (s.n : ℚ) ∧
      0 ≤ load_factor s ∧ load_factor s ≤ 100 := by
  have hnq : (0 : ℚ) < (s.n : ℚ) := by exact_mod_cast hn
  refine ⟨rfl, ?_, ?_⟩
  · unfold load_factor
    positivity
  · unfold load_factor
    rw [div_le_iff₀ hnq]
    have heq : (s.numElems : ℚ) ≤ (s.n : ℚ) := by exact_mod_cast he
    nlinarith

/-- Witness for C8 (amended) at the concrete state `c8s`. -/
theorem C8_witness :
    0 < c8s.n ∧ c8s.numElems ≤ c8s.n ∧
      (load_factor c8s = (c8s.numElems : ℚ) * 100 / (c8s.n : ℚ) ∧
        0 ≤ load_factor c8s ∧ load_factor c8s ≤ 100) :=
  ⟨by norm_num [c8s], by norm_num [c8s],
    C8_load_factor_is_percentage c8s (by norm_num [c8s]) (by norm_num [c8s])⟩

/-- C10: `count` returns only 0 or 1 for every table state and key —
including states holding several cells with the same key, over which the
statement quantifies.  The C++ method is `const` and invokes only
`const` accessors; the embedding reflects this by `count` being a pure
function of the state (no state is produced or modified). -/
theorem C10_count_zero_or_one :
    ∀ (B : Nat) (hsh : Nat → Nat × Nat) (s : TState) (k : Nat),
      count B hsh s k = 0 ∨ count B hsh s k = 1 := by
  intro B hsh s k
  unfold count
  split
  · right; rfl
  · left; rfl

/-- C4: in both lookup layouts, when the probe of the primary bucket
(anchored at `p0 = fastrange(hash0, n)`) misses and `unlucky_bucket(p0)`
is clear, `find` returns a miss without consulting the second bucket;
consequently any hit produced after a primary miss (i.e. by the
second-bucket probe) implies `unlucky_bucket(p0)` was set. -/
theorem C4_unlucky_gate :
    ∀ (B : Nat) (hsh : Nat → Nat × Nat) (s : TState) (k : Nat),
      (primaryProbe_AoS B hsh s k = none →
        Is_Unlucky_Bucket (s.meta (fastrange (hsh k).1 s.n)) = false →
        find_position_AoS B hsh s k = none) ∧
      (∀ p : Nat, primaryProbe_AoS B hsh s k = none →
        find_position_AoS B hsh s k = some p →
        Is_Unlucky_Bucket (s.meta (fastrange (hsh k).1 s.n)) = true) ∧
      (primaryProbe_SoA B hsh s k = none →
        Is_Unlucky_Bucket (s.meta (fastrange (hsh k).1 s.n)) = false →
        find_position_SoA B hsh s k = none) ∧
      (∀ p : Nat, primaryProbe_SoA B hsh s k = none →
        find_position_SoA B hsh s k = some p →
        Is_Unlucky_Bucket (s.meta (fastrange (hsh k).1 s.n)) = true) := by
  intro B hsh s k
  have haos : ∀ hp : primaryProbe_AoS B hsh s k = none,
      Is_Unlucky_Bucket (s.meta (fastrange (hsh k).1 s.n)) = false →
      find_position_AoS B hsh s k = none := by
    intro hp hu
    unfold find_position_AoS
    rw [hp]
    unfold Is_Unlucky_Bucket at hu
    rw [hu]
    simp
  have hsoa : ∀ hp : primaryProbe_SoA B hsh s k = none,
      Is_Unlucky_Bucket (s.meta (fastrange (hsh k).1 s.n)) = false →
      find_position_SoA B hsh s k = none := by
    intro hp hu
    unfold find_position_SoA
    rw [hp]
    unfold Is_Unlucky_Bucket at hu
    rw [hu]
    simp
  refine ⟨haos, ?_, hsoa, ?_⟩
  · intro p hp hfind
    by_cases hu : Is_Unlucky_Bucket (s.meta (fastrange (hsh k).1 s.n)) = true
    · exact hu
    · rw [haos hp (by simpa using hu)] at hfind
      cases hfind
  · intro p hp hfind
    by_cases hu : Is_Unlucky_Bucket (s.meta (fastrange (hsh k).1 s.n)) = true
    · exact hu
    · rw [hsoa hp (by simpa using hu)] at hfind
      cases hfind

/-- C1 (failing-input evaluation): starting from a fresh `B = 3` table of
4 bins, inserting key 7 and then erasing it leaves `len() = 1` —
`erase` never decrements `num_elems` — while the number of cells with a
non-zero label is 0.  Right after the insert both counts agree (1), the
erase reports success (1), and afterwards `len()` and the occupied-cell
count diverge (1 versus 0), contradicting both count consistency and
`len() = 0` after a single insert/erase. -/
theorem C1_erase_leaves_len_stale :
    (insert 3 zeroHash (initTable 3 4) (7, 42)).map
        (fun s1 =>
          (s1.numElems, occupiedCount s1, (erase 3 zeroHash s1 7).1,
            (erase 3 zeroHash s1 7).2.numElems, occupiedCount (erase 3 zeroHash s1 7).2))
      = some (1, 1, 1, 1, 0) := by
  decide

/-- Anchor-2 hash value for a table of 6 bins: `fastrange A2 6 = 2`. -/
def A2 : Nat := (2 * 2 ^ 64 + 5) / 6

/-- Hasher of the C2 scenario: keys 10 and 11 anchor at bucket 2 twice;
key 12 anchors at bucket 2 primarily and bucket 0 secondarily. -/
def c2h : Nat → Nat × Nat := fun key =>
  if key = 10 then (A2, A2)
  else if key = 11 then (A2, A2)
  else if key = 12 then (A2, 0)
  else (0, 0)

/-- C2 scenario, state before the duplicate insert: from a fresh `B = 2`
table of 6 bins, insert `(10,100)`, `(11,101)`, `(12,102)` — the last
lands in its secondary bucket (cell 0) and sets the unlucky flag — then
erase key 10, freeing a primary-bucket cell of key 12. -/
def c2pre : Option TState := do
  let s1 ← insert 2 c2h (initTable 2 6) (10, 100)
  let s2 ← insert 2 c2h s1 (11, 101)
  let s3 ← insert 2 c2h s2 (12, 102)
  pure (erase 2 c2h s3 10).2

/-- C2 scenario, state after inserting the duplicate `(12, 103)`. -/
def c2post : Option TState := do
  let s ← c2pre
  insert 2 c2h s (12, 103)

/-- Counterexample to C2: the table `c2pre` contains key 12 with value
102 (and `find` returns it), yet after `insert((12, 103))` a `find` of
key 12 yields 103, not the retained 102 the claim requires — the new
copy landed earlier in probe order than the old one. -/
theorem C2_counterexample :
    (c2pre.map fun s => (find_position 2 c2h s 12).map s.vals) = some (some 102) ∧
      (c2post.map fun s => (find_position 2 c2h s 12).map s.vals) = some (some 103) ∧
      (103 : Nat) ≠ 102 := by
  refine ⟨by decide, by decide, by decide⟩

/-- C2 (amended): inserting an already-present key does not detect or
update the existing cell; it places a fresh copy, after which the table
holds two cells with the key and `find` returns whichever the probe
order reaches first — here the new value.  Concretely, in `c2post` the
old cell 0 still holds `(12, 102)` with a non-zero label, cell 2 holds
the new `(12, 103)`, and `find` returns position 2. -/
theorem C2_duplicate_insert_keeps_old_cell :
    (c2post.map fun s => (s.keys 0, s.vals 0, Get_Label (s.meta 0))) = some (12, 102, 2) ∧
      (c2post.map fun s => (s.keys 2, s.vals 2, Get_Label (s.meta 2))) = some (12, 103, 1) ∧
      (c2post.map fun s => find_position 2 c2h s 12) = some (some 2) := by
  refine ⟨by decide, by decide, by decide⟩

/-- C3 counterexample state: a full `B = 2` table of 4 bins.  Bucket
`{0,1}` carries labels `(7,7)` (cell 1 at distance 1), bucket `{2,3}`
carries labels `(3,7)` (cell 3, the born-reversed anchor, holds an
element of anchor 2 at distance 1: `79 = 0b01001111`). -/
def c3s : TState :=
  { n := 4, numElems := 4
    meta := fun p =>
      if p = 0 then 7 else if p = 1 then 15 else if p = 2 then 3 else if p = 3 then 79 else 0
    keys := fun p => 100 + p
    vals := fun _ => 0 }

/-- Hasher of the C3 scenarios: the inserted key 50 anchors at bucket 0
primarily and bucket 2 secondarily. -/
def c3h : Nat → Nat × Nat := fun key => if key = 50 then (0, 2 ^ 63) else (0, 0)

/-- Whether a `try_insert` round reported saturation (`return false`). -/
def roundFailed : Option RoundRes → Bool
  | some (.failed _) => true
  | _ => false

/-- Counterexample to C3: at `c3s` the bucket minima for key 50 are
`min1 = 7` and `min2 = 3`, so `max(min1, min2) ≥ L_MAX`, no bucket has
an empty cell and both hopscotch searches fail — yet `try_insert` does
not report failure: its test (cbg.hpp:1115) is
`std::min(min1, min2) >= L_MAX`, and with `min(7,3) = 3 < 7` it evicts
the cell of bucket 2 instead. -/
theorem C3_counterexample :
    Calculate_Minimum c3s.meta 0 2 = (7, 0) ∧ Calculate_Minimum c3s.meta 2 2 = (3, 2) ∧
      max 7 3 ≥ L_MAX ∧
      roundFailed (tryInsertRound 2 c3h c3s (50, 0)) = false := by
  refine ⟨by decide, by decide, by decide, by decide⟩

set_option maxRecDepth 8192 in
/-- C3 (amended): when neither bucket has an empty cell and both
hopscotch searches fail without mutating the table, the round reports
failure (triggering rehash) exactly when `min(min1, min2) ≥ L_MAX`,
i.e. when *both* bucket minima have reached `L_MAX`; eviction proceeds
while *either* minimum is below `L_MAX`. -/
theorem C3_round_fails_iff_both_minima_saturated
    (B : Nat) (hsh : Nat → Nat × Nat) (s : TState) (e : Nat × Nat)
    (b1 b2 i1 i2 min1 pos1 min2 pos2 : Nat)
    (hb1 : b1 = fastrange (hsh e.1).1 s.n)
    (hb2 : b2 = fastrange (hsh e.1).2 s.n)
    (hi1 : i1 = addW b1 (if Is_Bucket_Reversed (s.meta b1) then subW 1 B else 0))
    (hi2 : i2 = addW b2 (if Is_Bucket_Reversed (s.meta b2) then subW 1 B else 0))
    (hm1 : Calculate_Minimum s.meta i1 B = (min1, pos1))
    (hm2 : Calculate_Minimum s.meta i2 B = (min2, pos2))
    (h1 : min1 ≠ 0)
    (hh1 : Find_Empty_Pos_Hopscotch B s b1 i1 = some (s, none))
    (h2 : min2 ≠ 0)
    (hh2 : s.numElems * 10 > 9 * s.n → Find_Empty_Pos_Hopscotch B s b2 i2 = some (s, none)) :
    tryInsertRound B hsh s e = some (.failed s) ↔ min min1 min2 ≥ L_MAX := by
  subst hb1 hb2 hi1 hi2
  unfold tryInsertRound
  simp only [hm1, hm2]
  rw [if_neg (by simpa using h1)]
  rw [hh1]
  dsimp only
  rw [if_neg (by simpa using h2)]
  by_cases hg : s.numElems * 10 > 9 * s.n
  · rw [if_pos hg, hh2 hg]
    dsimp only
    by_cases hmin : min min1 min2 ≥ L_MAX
    · rw [if_pos hmin]
      simp [hmin]
    · rw [if_neg hmin]
      constructor
      · intro hcon
        by_cases hle : min1 ≤ min2 <;> simp [hle] at hcon
      · intro hcon
        exact absurd hcon hmin
  · rw [if_neg hg]
    dsimp only
    by_cases hmin : min min1 min2 ≥ L_MAX
    · rw [if_pos hmin]
      simp [hmin]
    · rw [if_neg hmin]
      constructor
      · intro hcon
        by_cases hle : min1 ≤ min2 <;> simp [hle] at hcon
      · intro hcon
        exact absurd hcon hmin

/-- Witness state for C3 (amended): a full `B = 2` table of 4 bins with
every label at `L_MAX` (cell 1 at distance 1: `15`; cell 3 born reversed
holding an anchor-2 element at distance 1: `79`). -/
def w3s : TState :=
  { n := 4, numElems := 4
    meta := fun p =>
      if p = 0 then 7 else if p = 1 then 15 else if p = 2 then 7 else if p = 3 then 79 else 0
    keys := fun p => 100 + p
    vals := fun _ => 0 }

/-- Witness for C3 (amended): at `w3s` both bucket minima for key 50 are
`L_MAX`, and the round indeed reports failure. -/
theorem C3_witness :
    Calculate_Minimum w3s.meta 0 2 = (7, 0) ∧ Calculate_Minimum w3s.meta 2 2 = (7, 2) ∧
      tryInsertRound 2 c3h w3s (50, 0) = some (.failed w3s) :=
  ⟨by decide, by decide,
    (C3_round_fails_iff_both_minima_saturated 2 c3h w3s (50, 0) 0 2 0 2 7 0 7 2
        (by decide) (by decide) (by decide) (by decide) (by decide) (by decide)
        (by decide) rfl (by decide) (fun _ => rfl)).mpr
      (by decide)⟩

/-- C6 counterexample state: `B = 3`, 12 bins.  Bucket `{4,5,6}` holds
labels `(3,2,4)` — cell 4 anchored at 4, cell 5 at 5, cell 6 at 4
(distance 2: `20`) — bucket `{6,7,8}` holds labels `(4,2,5)` (cells 7, 8
anchored at 6 with distances 1 and 2: `10`, `21`), cells 2, 3, 9 are
empty and cells 10, 11 are born reversed. -/
def c6s : TState :=
  { n := 12, numElems := 5
    meta := fun p =>
      if p = 4 then 3 else if p = 5 then 2 else if p = 6 then 20
      else if p = 7 then 10 else if p = 8 then 21
      else if p = 10 ∨ p = 11 then 64 else 0
    keys := fun p => 100 + p
    vals := fun _ => 0 }

/-- Hash value anchoring at bucket 4 of 12 bins. -/
def H4 : Nat := (4 * 2 ^ 64 + 11) / 12

/-- Hash value anchoring at bucket 6 of 12 bins. -/
def H6 : Nat := 2 ^ 63

/-- Hasher of the C6 scenario: key 50 anchors at buckets 4 and 6. -/
def c6h : Nat → Nat × Nat := fun key => if key = 50 then (H4, H6) else (0, 0)

/-- Label written at cell 4 by the C6 round, paired with the minimum
label of the alternate bucket (anchored at 6, not reversed) in the
resulting state — the placement write at cell 4 does not touch that
bucket's window, so this is also its minimum at placement time. -/
def c6probe : Option (Nat × Nat) :=
  match tryInsertRound 3 c6h c6s (50, 0) with
  | some (.placed s') => some (Get_Label (s'.meta 4), (Calculate_Minimum s'.meta 6 3).1)
  | _ => none

/-- Counterexample to C6: inserting key 50 into `c6s` reverses bucket 4
(vacating cells 4 and 6) and places the element at cell 4 with label
`3 = min2 + 1` computed from the *stale* round-start minimum
`min2 = 2`; at placement time the alternate bucket `{6,7,8}` has
minimum label 0 (cell 6 was vacated by the same round's reversal), so
the claimed label `min(1 + m, L_MAX) = 1` differs from the written 3. -/
theorem C6_counterexample :
    c6probe = some (3, 0) ∧ (3 : Nat) ≠ min (0 + 1) L_MAX := by
  refine ⟨by decide, by decide⟩

set_option maxRecDepth 8192 in
/-- C6 (amended): a fast-path placement (first bucket has a zero-label
cell) writes `label = min(1 + m, L_MAX)` where `m` is the alternate
bucket's minimum *as sampled at the start of the round* — which equals
the placement-time minimum only when the round performed no intervening
mutation (hopscotch reversals in the same round can make it stale) —
and every occupied cell's label lies in `[1, L_MAX]` (an invariant that
holds for every metadata word by the 3-bit field). -/
theorem C6_placement_label_and_bound :
    (∀ (B : Nat) (hsh : Nat → Nat × Nat) (s : TState) (e : Nat × Nat)
        (b1 b2 i1 i2 pos1 min2 pos2 : Nat),
        b1 = fastrange (hsh e.1).1 s.n →
        b2 = fastrange (hsh e.1).2 s.n →
        i1 = addW b1 (if Is_Bucket_Reversed (s.meta b1) then subW 1 B else 0) →
        i2 = addW b2 (if Is_Bucket_Reversed (s.meta b2) then subW 1 B else 0) →
        Calculate_Minimum s.meta i1 B = (0, pos1) →
        Calculate_Minimum s.meta i2 B = (min2, pos2) →
        tryInsertRound B hsh s e =
          some (.placed (place s pos1 (subW pos1 i1) (Is_Bucket_Reversed (s.meta b1))
            (min (min2 + 1) L_MAX) e)) ∧
        Get_Label
            ((place s pos1 (subW pos1 i1) (Is_Bucket_Reversed (s.meta b1))
                (min (min2 + 1) L_MAX) e).meta pos1)
          = min (min2 + 1) L_MAX) ∧
    (∀ m : Nat, Get_Label m ≤ L_MAX ∧ (Is_Empty m = false → 1 ≤ Get_Label m)) := by
  constructor
  · intro B hsh s e b1 b2 i1 i2 pos1 min2 pos2 hb1 hb2 hi1 hi2 hm1 hm2
    subst hb1 hb2 hi1 hi2
    constructor
    · unfold tryInsertRound
      simp only [hm1, hm2]
      rfl
    · show Get_Label (updf _ pos1 (Update_Bin_At_8 _ _ _ _) pos1) = _
      rw [updf, if_pos rfl,
        getLabel_update_bin _ _ _ _
          (lt_of_le_of_lt (Nat.min_le_right _ _) (by norm_num [L_MAX]))]
  · intro m
    refine ⟨getLabel_le m, ?_⟩
    intro h
    unfold Is_Empty at h
    simp only [beq_eq_false_iff_ne, ne_eq] at h
    omega

/-- Witness for C6 (amended): on a fresh `B = 2` table of 4 bins the
fast path places key 9 at cell 0 with label `min(0 + 1, L_MAX) = 1`. -/
theorem C6_witness :
    Calculate_Minimum (initTable 2 4).meta 0 2 = (0, 0) ∧
      tryInsertRound 2 zeroHash (initTable 2 4) (9, 1) =
        some (.placed (place (initTable 2 4) 0 (subW 0 0)
          (Is_Bucket_Reversed ((initTable 2 4).meta 0)) (min (0 + 1) L_MAX) (9, 1))) ∧
      Get_Label
          ((place (initTable 2 4) 0 (subW 0 0)
              (Is_Bucket_Reversed ((initTable 2 4).meta 0)) (min (0 + 1) L_MAX) (9, 1)).meta 0)
        = min (0 + 1) L_MAX :=
  ⟨by decide,
    ((C6_placement_label_and_bound.1 2 zeroHash (initTable 2 4) (9, 1) 0 0 0 0 0 0 0
        (by decide) (by decide) (by decide) (by decide) (by decide) (by decide))).1,
    ((C6_placement_label_and_bound.1 2 zeroHash (initTable 2 4) (9, 1) 0 0 0 0 0 0 0
        (by decide) (by decide) (by decide) (by decide) (by decide) (by decide))).2⟩

/-- C5 counterexample state: a full `B = 2` table of 8 bins with every
label 1; cells 0..6 are anchored at themselves, cell 7 belongs to the
born-reversed bucket 7 (`105 = 0b01101001`: reversed item, distance 1,
label 1). -/
def c5s : TState :=
  { n := 8, numElems := 8
    meta := fun p => if p = 7 then 105 else if p < 7 then 1 else 0
    keys := fun p => if p < 8 then 200 + p else 0
    vals := fun _ => 0 }

/-- Hasher of the C5 scenario: resident key `200 + i` anchors (twice) at
bucket `i`; the inserted key 208 anchors (twice) at bucket 0. -/
def c5h : Nat → Nat × Nat := fun key =>
  if 200 ≤ key ∧ key ≤ 207 then ((key - 200) * 2 ^ 61, (key - 200) * 2 ^ 61) else (0, 0)

/-- Second C5 counterexample state (`B = 3`, 16 bins): bucket `{6,7,8}`
holds labels `(4,2,5)` (cell 8 anchored at 6, distance 2: `21`); cell 7
is the anchor of bucket `{7,8,9}`, whose other element sits at cell 9
with label 7 (distance 2: `23`); cell 5 is empty, cell 4 occupied;
bucket `{10,11,12}` holds labels `(2,3,3)`; cells 14, 15 are born
reversed.  The load is below 90 %, so the secondary hopscotch is
skipped. -/
def c5ds : TState :=
  { n := 16, numElems := 8
    meta := fun p =>
      if p = 4 then 1 else if p = 6 then 4 else if p = 7 then 2 else if p = 8 then 21
      else if p = 9 then 23 else if p = 10 then 2 else if p = 11 ∨ p = 12 then 3
      else if p = 14 ∨ p = 15 then 64 else 0
    keys := fun p => 300 + p
    vals := fun _ => 0 }

/-- Hasher of the second C5 counterexample: key 60 anchors at buckets 6
and 10 of the 16-bin table. -/
def c5dh : Nat → Nat × Nat := fun key => if key = 60 then (6 * 2 ^ 60, 10 * 2 ^ 60) else (0, 0)

/-- Label sums before and after the eviction round of the second C5
counterexample (defined only when the round is an eviction). -/
def c5dprobe : Option (Nat × Nat) :=
  match tryInsertRound 3 c5dh c5ds (60, 0) with
  | some (.evict s' _) => some (labelSum c5ds, labelSum s')
  | _ => none

/-- Counterexample to C5, refuting both of its quantitative parts.
First, the round bound: inserting key 208 into the full table `c5s`
drives the cuckoo eviction loop for 47 rounds before `try_insert`
returns failure — beyond the claimed `L_MAX · B · 2 = 7 · 2 · 2 = 28`.
Second, the strict label-sum increase: inserting key 60 into `c5ds` is
a single eviction round that *decreases* the total label sum from 27 to
23 — the failed hopscotch search reverses neighbouring bucket 7, its
second move relocates the label-7 element of cell 9 onto the vacated
minimum cell `pos1 = 7`, and the eviction then overwrites that cell
with label `min(min2 + 1, L_MAX) = 3` computed from the round-start
minima. -/
theorem C5_counterexample :
    ((try_insert 2 c5h 200 c5s (208, 0) 0).map (fun r => (r.1, r.2.2)) = some (false, 47) ∧
      47 > L_MAX * 2 * 2) ∧
      c5dprobe = some (27, 23) ∧ ¬ (27 : Nat) < 23 := by
  refine ⟨⟨by decide, by decide⟩, by decide, by decide⟩

/-- The pair returned by `Calculate_Minimum` is honest: its first
component is the label stored at its second component. -/
lemma calcMin_label (m : Nat → Nat) (bucket_pos B : Nat) :
    (Calculate_Minimum m bucket_pos B).1 = Get_Label (m (Calculate_Minimum m bucket_pos B).2) := by
  unfold Calculate_Minimum
  generalize List.range' 1 (B - 1) = l
  have h : ∀ (l' : List Nat) (acc : Nat × Nat), acc.1 = Get_Label (m acc.2) →
      (l'.foldl
          (fun acc i =>
            if acc.1 > Get_Label (m (addW bucket_pos i)) then
              (Get_Label (m (addW bucket_pos i)), addW bucket_pos i)
            else acc)
          acc).1
        = Get_Label
            (m
              ((l'.foldl
                  (fun acc i =>
                    if acc.1 > Get_Label (m (addW bucket_pos i)) then
                      (Get_Label (m (addW bucket_pos i)), addW bucket_pos i)
                    else acc)
                  acc).2)) := by
    intro l'
    induction l' with
    | nil => intro acc hacc; exact hacc
    | cons x t ih =>
      intro acc hacc
      simp only [List.foldl_cons]
      apply ih
      dsimp only
      split
      · rfl
      · exact hacc
  exact h l _ rfl

/-- Overwriting one cell trades its label for the written one in the
table's label sum. -/
lemma labelSum_update (s : TState) (j w : Nat) (hj : j < s.n) :
    labelSum { s with meta := updf s.meta j w } + Get_Label (s.meta j)
      = labelSum s + Get_Label w := by
  unfold labelSum
  dsimp only
  have hjmem : j ∈ Finset.range s.n := Finset.mem_range.2 hj
  rw [← Finset.sum_erase_add (Finset.range s.n) (fun i => Get_Label (updf s.meta j w i)) hjmem,
    ← Finset.sum_erase_add (Finset.range s.n) (fun i => Get_Label (s.meta i)) hjmem]
  have hcongr : ∑ i ∈ (Finset.range s.n).erase j, Get_Label (updf s.meta j w i)
      = ∑ i ∈ (Finset.range s.n).erase j, Get_Label (s.meta i) := by
    apply Finset.sum_congr rfl
    intro i hi
    simp only [updf]
    rw [if_neg (Finset.ne_of_mem_erase hi)]
  have hat : updf s.meta j w j = w := by
    simp [updf]
  rw [hcongr, hat]
  omega

/-- Setting the unlucky bit does not change a cell's label. -/
lemma getLabel_set_unlucky (m : Nat) : Get_Label (Set_Unlucky_Bucket m) = Get_Label m := by
  show (m ||| 128) &&& 7 = m &&& 7
  rw [Nat.and_distrib_right, show (128 &&& 7 : Nat) = 0 by decide]
  simp

/-- Setting the unlucky bit anywhere preserves the label sum. -/
lemma labelSum_set_unlucky (s : TState) (b : Nat) :
    labelSum { s with meta := updf s.meta b (Set_Unlucky_Bucket (s.meta b)) } = labelSum s := by
  unfold labelSum
  dsimp only
  apply Finset.sum_congr rfl
  intro i _
  simp only [updf]
  by_cases hib : i = b
  · rw [if_pos hib, hib, getLabel_set_unlucky]
  · rw [if_neg hib]

/-- `writeCell` trades the overwritten label for the written one in the
label sum (the payload writes do not enter the sum). -/
lemma labelSum_writeCell (s : TState) (pos dist : Nat) (rev : Bool) (label : Nat)
    (e : Nat × Nat) (hpos : pos < s.n) (hlab : label < 8) :
    labelSum (writeCell s pos dist rev label e) + Get_Label (s.meta pos)
      = labelSum s + label := by
  have h := labelSum_update s pos (Update_Bin_At_8 (s.meta pos) dist rev label) hpos
  rw [getLabel_update_bin _ _ _ _ hlab] at h
  exact h

set_option maxRecDepth 8192 in
/-- C5 (amended): a cuckoo eviction round whose failed hopscotch
searches leave the table unchanged strictly increases the sum of all
labels (the written label `min(other + 1, L_MAX)` strictly exceeds the
evicted minimum, which is below `L_MAX` whenever the round evicts).
Neither quantitative part of the original claim survives unrestricted:
a round whose failed hopscotch search reverses a bucket can decrease
the sum, and the loop can run longer than `L_MAX · B · 2` rounds — both
exhibited by `C5_counterexample`. -/
theorem C5_clean_eviction_round_increases_label_sum
    (B : Nat) (hsh : Nat → Nat × Nat) (s s' : TState) (e e' : Nat × Nat)
    (b1 b2 i1 i2 min1 pos1 min2 pos2 : Nat)
    (hb1 : b1 = fastrange (hsh e.1).1 s.n)
    (hb2 : b2 = fastrange (hsh e.1).2 s.n)
    (hi1 : i1 = addW b1 (if Is_Bucket_Reversed (s.meta b1) then subW 1 B else 0))
    (hi2 : i2 = addW b2 (if Is_Bucket_Reversed (s.meta b2) then subW 1 B else 0))
    (hm1 : Calculate_Minimum s.meta i1 B = (min1, pos1))
    (hm2 : Calculate_Minimum s.meta i2 B = (min2, pos2))
    (hp1 : pos1 < s.n) (hp2 : pos2 < s.n)
    (h1 : min1 ≠ 0)
    (hh1 : Find_Empty_Pos_Hopscotch B s b1 i1 = some (s, none))
    (h2 : min2 ≠ 0)
    (hh2 : s.numElems * 10 > 9 * s.n → Find_Empty_Pos_Hopscotch B s b2 i2 = some (s, none))
    (hev : tryInsertRound B hsh s e = some (.evict s' e')) :
    labelSum s < labelSum s' := by
  have hl1 : Get_Label (s.meta pos1) = min1 := by
    have h := calcMin_label s.meta i1 B
    rw [hm1] at h
    exact h.symm
  have hl2 : Get_Label (s.meta pos2) = min2 := by
    have h := calcMin_label s.meta i2 B
    rw [hm2] at h
    exact h.symm
  unfold tryInsertRound at hev
  dsimp only at hev
  rw [← hb1, ← hb2] at hev
  rw [← hi1, ← hi2] at hev
  simp only [hm1, hm2] at hev
  rw [if_neg (by simpa using h1)] at hev
  rw [hh1] at hev
  dsimp only at hev
  rw [if_neg (by simpa using h2)] at hev
  have hL : L_MAX = 7 := rfl
  by_cases hg : s.numElems * 10 > 9 * s.n
  · rw [if_pos hg, hh2 hg] at hev
    dsimp only at hev
    by_cases hmin : min min1 min2 ≥ L_MAX
    · rw [if_pos hmin] at hev
      simp at hev
    · rw [if_neg hmin] at hev
      by_cases hle : min1 ≤ min2
      · rw [if_pos hle] at hev
        simp only [Option.some.injEq, RoundRes.evict.injEq] at hev
        obtain ⟨hs', _⟩ := hev
        subst hs'
        have hsum := labelSum_writeCell s pos1 (subW pos1 i1)
          (Is_Bucket_Reversed (s.meta b1)) (min (min2 + 1) L_MAX) e hp1
          (lt_of_le_of_lt (Nat.min_le_right _ _) (by omega))
        rw [hl1] at hsum
        omega
      · rw [if_neg hle] at hev
        simp only [Option.some.injEq, RoundRes.evict.injEq] at hev
        obtain ⟨hs', _⟩ := hev
        subst hs'
        have hsame : Get_Label
            (updf s.meta b1 (Set_Unlucky_Bucket (s.meta b1)) pos2) = Get_Label (s.meta pos2) := by
          simp only [updf]
          by_cases hib : pos2 = b1
          · rw [if_pos hib, hib, getLabel_set_unlucky]
          · rw [if_neg hib]
        have hsum := labelSum_writeCell
          { s with meta := updf s.meta b1 (Set_Unlucky_Bucket (s.meta b1)) }
          pos2 (subW pos2 i2) (Is_Bucket_Reversed (s.meta b2)) (min (min1 + 1) L_MAX) e hp2
          (lt_of_le_of_lt (Nat.min_le_right _ _) (by omega))
        rw [show ({ s with meta := updf s.meta b1 (Set_Unlucky_Bucket (s.meta b1)) } :
            TState).meta = updf s.meta b1 (Set_Unlucky_Bucket (s.meta b1)) from rfl] at hsum
        rw [hsame, hl2, labelSum_set_unlucky] at hsum
        omega
  · rw [if_neg hg] at hev
    dsimp only at hev
    by_cases hmin : min min1 min2 ≥ L_MAX
    · rw [if_pos hmin] at hev
      simp at hev
    · rw [if_neg hmin] at hev
      by_cases hle : min1 ≤ min2
      · rw [if_pos hle] at hev
        simp only [Option.some.injEq, RoundRes.evict.injEq] at hev
        obtain ⟨hs', _⟩ := hev
        subst hs'
        have hsum := labelSum_writeCell s pos1 (subW pos1 i1)
          (Is_Bucket_Reversed (s.meta b1)) (min (min2 + 1) L_MAX) e hp1
          (lt_of_le_of_lt (Nat.min_le_right _ _) (by omega))
        rw [hl1] at hsum
        omega
      · rw [if_neg hle] at hev
        simp only [Option.some.injEq, RoundRes.evict.injEq] at hev
        obtain ⟨hs', _⟩ := hev
        subst hs'
        have hsame : Get_Label
            (updf s.meta b1 (Set_Unlucky_Bucket (s.meta b1)) pos2) = Get_Label (s.meta pos2) := by
          simp only [updf]
          by_cases hib : pos2 = b1
          · rw [if_pos hib, hib, getLabel_set_unlucky]
          · rw [if_neg hib]
        have hsum := labelSum_writeCell
          { s with meta := updf s.meta b1 (Set_Unlucky_Bucket (s.meta b1)) }
          pos2 (subW pos2 i2) (Is_Bucket_Reversed (s.meta b2)) (min (min1 + 1) L_MAX) e hp2
          (lt_of_le_of_lt (Nat.min_le_right _ _) (by omega))
        rw [show ({ s with meta := updf s.meta b1 (Set_Unlucky_Bucket (s.meta b1)) } :
            TState).meta = updf s.meta b1 (Set_Unlucky_Bucket (s.meta b1)) from rfl] at hsum
        rw [hsame, hl2, labelSum_set_unlucky] at hsum
        omega

/-- The post-eviction state of the C5 witness round: the unlucky bit is
set at anchor 0 and the new element overwrites cell 2 with label 7. -/
def c5ws : TState :=
  writeCell { c3s with meta := updf c3s.meta 0 (Set_Unlucky_Bucket (c3s.meta 0)) }
    2 0 false 7 (50, 0)

/-- Witness for C5 (amended): the eviction round of the C3 scenario
(a clean hopscotch failure) strictly increases the label sum
(24 before, 28 after). -/
theorem C5_witness :
    Calculate_Minimum c3s.meta 0 2 = (7, 0) ∧ Calculate_Minimum c3s.meta 2 2 = (3, 2) ∧
      tryInsertRound 2 c3h c3s (50, 0) = some (.evict c5ws (102, 0)) ∧
      labelSum c3s < labelSum c5ws :=
  ⟨by decide, by decide, by rfl,
    C5_clean_eviction_round_increases_label_sum 2 c3h c3s c5ws (50, 0) (102, 0)
      0 2 0 2 7 0 3 2 (by decide) (by decide) (by decide) (by decide) (by decide) (by decide)
      (by decide) (by decide) (by decide) rfl (by decide) (fun _ => rfl) (by rfl)⟩

/-- Witness state for C4: one occupied cell (key 5, label 1) at position
0, no flags set anywhere. -/
def w4s : TState :=
  { n := 2, numElems := 1
    meta := fun p => if p = 0 then 1 else 0
    keys := fun p => if p = 0 then 5 else 0
    vals := fun _ => 0 }

/-- Witness for C4: on `w4s` the primary probe for the absent key 3
misses, the anchor's unlucky bit is clear, and `find` (both layouts)
returns a miss. -/
theorem C4_witness :
    primaryProbe_AoS 2 zeroHash w4s 3 = none ∧
      Is_Unlucky_Bucket (w4s.meta (fastrange (zeroHash 3).1 w4s.n)) = false ∧
      find_position_AoS 2 zeroHash w4s 3 = none ∧
      primaryProbe_SoA 2 zeroHash w4s 3 = none ∧
      find_position_SoA 2 zeroHash w4s 3 = none :=
  ⟨by decide, by decide,
    (C4_unlucky_gate 2 zeroHash w4s 3).1 (by decide) (by decide),
    by decide,
    (C4_unlucky_gate 2 zeroHash w4s 3).2.2.1 (by decide) (by decide)⟩

end CBG
